import Mathlib

/-!
Shallow embedding of `src/stress-test.ts` (WhisperLive stress-test harness).

The TypeScript file defines a `StressTestRunner` class with three pieces of
logic:

* `runSingleClient(clientId)` — runs one client (connect, process audio,
  disconnect) raced against a 180 000 ms per-session timer, and always
  returns a `StressTestResult` record; every failure is caught and stored
  in the record's `error` field (lines 41-91).
* `runStressTest()` — launches all `N` client promises, races
  `Promise.all` of them against a 210 000 ms global timer, assigns
  `this.results` from the race, and calls `printResults`; on a global
  timeout it falls into the `catch` block, prints partial results only if
  `this.results.length > 0`, and rethrows (lines 93-142).
* `printResults(totalTime)` — success/failure counts, success rate
  (`(successful.length / numberOfClients) * 100).toFixed(1)`), a failure
  histogram over an insertion-ordered map, and a recommendation tier
  (lines 144-218).

The embedding models JavaScript asynchrony by an explicit `ClientBehavior`
oracle per client (what each client call does and when the work settles),
and the outcome of the global race by a boolean oracle
(`globalTimeoutFirst`), since the global timer winning is only reachable
through event-loop pathologies that no untimed model decides.  JavaScript
numbers on the measured paths are naturals (timestamps, counts) and exact
rationals (the success-rate and threshold arithmetic); the special value
`NaN` produced by `0 / 0` is modelled explicitly by `JsNum.nan`.
-/

/-- Mirror of the TypeScript interface `StressTestResult`
(src/stress-test.ts lines 16-23): `endTime`, `duration` and `error` are
optional fields. -/
structure StressTestResult where
  clientId : Nat
  success : Bool
  startTime : Nat
  endTime : Option Nat
  duration : Option Nat
  error : Option String
deriving Repr, DecidableEq

/-- Behaviour oracle for one `WhisperLiveClient` used by a single session:
each of `connect()`, `processAudioFile(...)`, `disconnect()` either
returns (`none`) or throws with the given message (`some msg`), and
`workDuration` is the wall-clock time (ms after the session start) at
which the client work settles (fulfils or rejects). -/
structure ClientBehavior where
  connectResult : Option String
  processResult : Option String
  disconnectResult : Option String
  workDuration : Nat
deriving Repr, DecidableEq

/-- Per-session deadline: `180000` ms, the literal in `setTimeout(...,
180000)` at src/stress-test.ts line 52. -/
def perClientTimeoutMs : Nat := 180000

/-- Global deadline: `210000` ms, the literal in `setTimeout(..., 210000)`
at src/stress-test.ts line 107. -/
def globalTimeoutMs : Nat := 210000

/-- The async work raced against the per-session timer
(src/stress-test.ts lines 62-72): `connect`, then `processAudioFile`,
then `disconnect`; the first step that throws rejects the whole chain. -/
def sessionWork (b : ClientBehavior) : Except String Unit :=
  match b.connectResult with
  | some e => .error e
  | none =>
    match b.processResult with
    | some e => .error e
    | none =>
      match b.disconnectResult with
      | some e => .error e
      | none => .ok ()

/-- The `Promise.race` of the session work against the per-session timer
(src/stress-test.ts lines 49-74).  The timer wins exactly when the work
settles strictly after the 180 000 ms deadline, rejecting with the
timeout message of line 51; otherwise the race settles like the work. -/
def racedWork (clientId : Nat) (b : ClientBehavior) : Except String Unit :=
  if perClientTimeoutMs < b.workDuration then
    .error s!"Client {clientId} timed out after 3 minutes"
  else sessionWork b

/-- The time (ms after session start) at which the race settles: the work
settling time, capped by the per-session deadline. -/
def settleDelta (b : ClientBehavior) : Nat :=
  min b.workDuration perClientTimeoutMs

/-- Mirror of `runSingleClient` (src/stress-test.ts lines 41-91).  The
record starts as `{clientId, success: false, startTime}`; the `try`
branch (race fulfilled) sets `endTime`, `duration`, `success = true`; the
`catch` branch sets `endTime`, `duration` and `error` to the caught
message.  `startTime` is the ambient `Date.now()` at entry. -/
def runSingleClient (clientId startTime : Nat) (b : ClientBehavior) :
    StressTestResult :=
  match racedWork clientId b with
  | .ok _ =>
    { clientId := clientId, success := true, startTime := startTime,
      endTime := some (startTime + settleDelta b),
      duration := some (startTime + settleDelta b - startTime),
      error := none }
  | .error e =>
    { clientId := clientId, success := false, startTime := startTime,
      endTime := some (startTime + settleDelta b),
      duration := some (startTime + settleDelta b - startTime),
      error := some e }

/-- The array `clientPromises` of src/stress-test.ts lines 112-115: the
loop `for (let i = 1; i <= numberOfClients; i++)` pushes
`runSingleClient(i)`, so position `i - 1` holds client `i`'s outcome.
All sessions start at the same ambient time, taken as `0`. -/
def launchSessions (N : Nat) (bs : Nat → ClientBehavior) :
    List StressTestResult :=
  (List.range N).map (fun i => runSingleClient (i + 1) 0 (bs (i + 1)))

/-- Result of one whole `runStressTest()` call (src/stress-test.ts lines
93-142): the final value of the `this.results` field, the argument
`printResults` was invoked on (if it was invoked), and the error the
method rethrew (if any). -/
structure BatchRun where
  finalResults : List StressTestResult
  printedResults : Option (List StressTestResult)
  thrown : Option String
deriving Repr, DecidableEq

/-- Mirror of `runStressTest` (src/stress-test.ts lines 93-142).
`this.results` starts as `[]` (line 28) and is assigned only by
`this.results = await Promise.race([...])` (line 121).  If the global
timer fires first the race rejects, the assignment never happens, and the
`catch` block runs with `this.results` still `[]`: it calls
`printResults` only under `if (this.results.length > 0)` (line 137) and
rethrows.  If `Promise.all` settles first, `this.results` becomes the
full ordered outcome list and `printResults` is called on it.  With
`N = 0`, `Promise.all([])` is already fulfilled when the race is built,
so the global timer cannot win, whatever the oracle says. -/
def runStressTest (N : Nat) (bs : Nat → ClientBehavior)
    (globalTimeoutFirst : Bool) : BatchRun :=
  let sessionResults := launchSessions N bs
  if globalTimeoutFirst && N != 0 then
    let results : List StressTestResult := []
    { finalResults := results,
      printedResults := if results.length > 0 then some results else none,
      thrown := some "Entire stress test timed out after 3.5 minutes" }
  else
    { finalResults := sessionResults,
      printedResults := some sessionResults,
      thrown := none }

/-! ### Reporter: `printResults` (src/stress-test.ts lines 144-218) -/

/-- JavaScript number on the success-rate path: an exact finite value, or
the special values `Infinity` / `NaN` that division can produce. -/
inductive JsNum where
  | nan : JsNum
  | inf : JsNum
  | num : ℚ → JsNum
deriving Repr, DecidableEq

/-- JavaScript division on the non-negative operands used here: `0 / 0`
is `NaN`, `x / 0` for `x > 0` is `Infinity`. -/
def jsDiv (a b : ℚ) : JsNum :=
  if b = 0 then (if a = 0 then .nan else .inf) else .num (a / b)

/-- JavaScript multiplication of a (possibly special) number by a
positive literal, as in `(... / N) * 100`. -/
def jsMul (a : JsNum) (q : ℚ) : JsNum :=
  match a with
  | .nan => .nan
  | .inf => .inf
  | .num x => .num (x * q)

/-- `Number.prototype.toFixed(1)` on the values reachable here:
`"NaN"` for `NaN`, `"Infinity"` for `Infinity`, and for finite
non-negative `q` the decimal with one fractional digit, rounding half
away from zero (ECMA-262 picks the larger candidate on ties). -/
def toFixed1 : JsNum → String
  | .nan => "NaN"
  | .inf => "Infinity"
  | .num q =>
    let n : ℤ := ⌊q * 10 + 1 / 2⌋
    toString (n / 10) ++ "." ++ toString (n % 10)

/-- The success-rate line of src/stress-test.ts line 153:
`((successful.length / this.numberOfClients) * 100).toFixed(1) + "%"`. -/
def successRateDisplay (succCount N : Nat) : String :=
  toFixed1 (jsMul (jsDiv (succCount : ℚ) (N : ℚ)) 100) ++ "%"

/-- `listHasPref s p` is true when `p` is an initial segment of `s`. -/
def listHasPref : List Char → List Char → Bool
  | _, [] => true
  | [], _ :: _ => false
  | a :: s, b :: p => a = b && listHasPref s p

/-- `listHasSub s p` is true when `p` occurs contiguously inside `s`. -/
def listHasSub : List Char → List Char → Bool
  | [], p => p.isEmpty
  | a :: s, p => listHasPref (a :: s) p || listHasSub s p

/-- `String.prototype.includes`: substring containment. -/
def strIncludes (s marker : String) : Bool :=
  listHasSub s.data marker.data

/-- `String.prototype.split` on a single separator character, as in
`result.error.split(':')` — splits at every occurrence, never returns an
empty list (splitting `""` gives `[""]`). -/
def splitOnChar (c : Char) : List Char → List (List Char)
  | [] => [[]]
  | a :: s =>
    let rest := splitOnChar c s
    if a = c then [] :: rest
    else
      match rest with
      | [] => [[a]]
      | h :: t => (a :: h) :: t

/-- The histogram bucket of one error message, mirroring the
classification chain of src/stress-test.ts lines 183-194.  `none` models
an absent `error` field; `some ""` is present but falsy in
`if (result.error)`, so both land in `"Unknown"`.  The final branch is
`result.error.split(':')[0]`. -/
def errorTypeOf (err : Option String) : String :=
  match err with
  | none => "Unknown"
  | some e =>
    if e = "" then "Unknown"
    else if strIncludes e "timed out" then "Timeout"
    else if strIncludes e "WebSocket" then "WebSocket Error"
    else if strIncludes e "Server is not available" then "Server Unavailable"
    else String.mk ((splitOnChar ':' e.data).headD [])

/-- Bucket of one failed outcome: the code reads only `result.error`. -/
def bucketOf (r : StressTestResult) : String :=
  errorTypeOf r.error

/-- One `errorCounts.set(errorType, (errorCounts.get(errorType) || 0) + 1)`
step on a JavaScript `Map` modelled as an insertion-ordered association
list: bump an existing key in place, or append the new key with count 1. -/
def bumpCount : List (String × Nat) → String → List (String × Nat)
  | [], k => [(k, 1)]
  | (k', v) :: rest, k =>
    if k' = k then (k', v + 1) :: rest
    else (k', v) :: bumpCount rest k

/-- The failure histogram of src/stress-test.ts lines 181-196:
`failed.forEach` classifies each failed outcome and bumps its bucket. -/
def errorCounts (rs : List StressTestResult) : List (String × Nat) :=
  (rs.filter (fun r => !r.success)).foldl
    (fun m r => bumpCount m (bucketOf r)) []

/-- Total of all histogram bucket counts. -/
def sumCounts (m : List (String × Nat)) : Nat :=
  (m.map (fun p => p.2)).sum

/-- The recommendation messages of src/stress-test.ts lines 203-212. -/
def excellentMsg : String :=
  "Excellent! Your server handled all concurrent requests successfully."

/-- Line 207 tier message. -/
def goodMsg : String :=
  "Good performance, but some failures occurred. Check server resources."

/-- Line 209 tier message. -/
def moderateMsg : String :=
  "Moderate performance. Consider optimizing server configuration."

/-- Line 211 tier message. -/
def poorMsg : String :=
  "Poor performance. Server may be overloaded or misconfigured."

/-- The recommendation chain of src/stress-test.ts lines 204-212:
`if (successful.length === N) ... else if (successful.length >= N * 0.8)
... else if (successful.length >= N * 0.5) ... else ...`. -/
def recommendation (succCount N : Nat) : String :=
  if succCount = N then excellentMsg
  else if ((N : ℚ) * (4 / 5) ≤ (succCount : ℚ)) then goodMsg
  else if ((N : ℚ) * (1 / 2) ≤ (succCount : ℚ)) then moderateMsg
  else poorMsg

/-- The observable summary produced by one `printResults(totalTime)` call
(src/stress-test.ts lines 144-218), over the `this.results` list `rs` and
the configured client count `N` (`this.numberOfClients`). -/
structure Report where
  successCount : Nat
  failCount : Nat
  rateDisplay : String
  histogram : List (String × Nat)
  recMsg : String
deriving Repr, DecidableEq

/-- Mirror of `printResults` (src/stress-test.ts lines 144-218), keeping
the data that reaches standard output.  The histogram block only runs
when `failed.length > 0`, but with no failed outcomes `errorCounts` is
empty anyway, so it is recorded unconditionally. -/
def printResults (rs : List StressTestResult) (N : Nat) : Report :=
  let successful := rs.filter (fun r => r.success)
  let failed := rs.filter (fun r => !r.success)
  { successCount := successful.length,
    failCount := failed.length,
    rateDisplay := successRateDisplay successful.length N,
    histogram := errorCounts rs,
    recMsg := recommendation successful.length N }

/-- The histogram-bucket policy as the specification words it, rule by
rule with first match winning: a timeout marker, then the transport-layer
marker, then the unavailability marker, then the substring of the message
before the first separator character, with `"Unknown"` when there is no
message (absent or empty).  Written for comparison with `errorTypeOf`,
which is read off the code. -/
def errorTypeSpec (err : Option String) : String :=
  match err with
  | none => "Unknown"
  | some e =>
    if e = "" then "Unknown"
    else if strIncludes e "timed out" then "Timeout"
    else if strIncludes e "WebSocket" then "WebSocket Error"
    else if strIncludes e "Server is not available" then "Server Unavailable"
    else String.mk (e.data.takeWhile (fun x => x != ':'))

/-- The multiset of buckets of the failed outcomes, in list order. -/
def failedKeys (rs : List StressTestResult) : List String :=
  (rs.filter (fun r => !r.success)).map bucketOf

/-- A client whose whole lifecycle succeeds after 500 ms. -/
def fastOk : ClientBehavior := ⟨none, none, none, 500⟩

/-- A client whose work never settles within either deadline. -/
def hangingClient : ClientBehavior := ⟨none, none, none, 1000000000⟩

/-- A client whose `connect()` rejects immediately with
`"Connection refused"`, settling 120 ms after start. -/
def refusedConn : ClientBehavior := ⟨some "Connection refused", none, none, 120⟩

/-- Ten clients of which the first seven succeed quickly and the last
three hang: the scenario where the global deadline fires with 7/10
sessions already succeeded. -/
def mixedBehaviors (i : Nat) : ClientBehavior :=
  if i ≤ 7 then fastOk else hangingClient

/-- One failed outcome with error `"Error: x"`. -/
def histSampleA : List StressTestResult :=
  [{ clientId := 1, success := false, startTime := 0,
     endTime := some 5, duration := some 5, error := some "Error: x" }]

/-- The same success flag and error message as `histSampleA`, but every
other field different. -/
def histSampleB : List StressTestResult :=
  [{ clientId := 9, success := false, startTime := 3,
     endTime := some 9, duration := some 6, error := some "Error: x" }]

/-! ### Helper lemmas -/

theorem runSingleClient_clientId (id t : Nat) (b : ClientBehavior) :
    (runSingleClient id t b).clientId = id := by
  cases h : racedWork id b <;> simp [runSingleClient, h]

theorem splitOnChar_ne_nil (c : Char) (s : List Char) :
    splitOnChar c s ≠ [] := by
  cases s with
  | nil => simp [splitOnChar]
  | cons a s =>
    simp only [splitOnChar]
    by_cases h : a = c
    · simp [h]
    · simp only [if_neg h]
      cases splitOnChar c s <;> simp

theorem splitOnChar_headD (c : Char) (s : List Char) :
    (splitOnChar c s).headD [] = s.takeWhile (fun x => x != c) := by
  induction s with
  | nil => rfl
  | cons a s ih =>
    simp only [splitOnChar, List.takeWhile]
    by_cases h : a = c
    · simp [h]
    · simp only [if_neg h]
      have hb : (a != c) = true := by simp [h]
      rw [hb]
      cases hr : splitOnChar c s with
      | nil => exact absurd hr (splitOnChar_ne_nil c s)
      | cons hd tl =>
        rw [hr] at ih
        simp only [List.headD] at ih ⊢
        simp [ih]

theorem sumCounts_bumpCount (m : List (String × Nat)) (k : String) :
    sumCounts (bumpCount m k) = sumCounts m + 1 := by
  induction m with
  | nil => rfl
  | cons p t ih =>
    obtain ⟨k2, v⟩ := p
    by_cases h : k2 = k
    · simp [bumpCount, h, sumCounts]
      omega
    · simp only [bumpCount, if_neg h]
      simp [sumCounts] at ih ⊢
      omega

theorem sumCounts_foldl (l : List StressTestResult) :
    ∀ m : List (String × Nat),
      sumCounts (l.foldl (fun m r => bumpCount m (bucketOf r)) m) =
        sumCounts m + l.length := by
  induction l with
  | nil => intro m; simp
  | cons r t ih =>
    intro m
    simp only [List.foldl_cons, List.length_cons, ih, sumCounts_bumpCount]
    omega

theorem failedKeys_congr : ∀ rs1 rs2 : List StressTestResult,
    rs1.map (fun r => (r.success, r.error)) =
      rs2.map (fun r => (r.success, r.error)) →
    failedKeys rs1 = failedKeys rs2 := by
  intro rs1
  induction rs1 with
  | nil =>
    intro rs2 h
    have h2 : rs2 = [] := by
      cases rs2 with
      | nil => rfl
      | cons r t => simp at h
    rw [h2]
  | cons r t ih =>
    intro rs2 h
    cases rs2 with
    | nil => simp at h
    | cons r2 t2 =>
      simp only [List.map_cons, List.cons.injEq, Prod.mk.injEq] at h
      obtain ⟨⟨h1, h2⟩, h3⟩ := h
      simp only [failedKeys, List.filter_cons]
      rw [h1]
      by_cases hs : r2.success
      · simp only [hs]
        simpa [failedKeys] using ih t2 h3
      · simp only [Bool.not_eq_true] at hs
        simp only [hs]
        have hb : bucketOf r = bucketOf r2 := by simp [bucketOf, h2]
        simpa [failedKeys, hb] using ih t2 h3

theorem errorCounts_eq_foldl_failedKeys (rs : List StressTestResult) :
    errorCounts rs = (failedKeys rs).foldl bumpCount [] := by
  simp [errorCounts, failedKeys, List.foldl_map]

/-! ### Claim theorems -/

/-- C7: the global deadline duration is strictly greater than the
per-session deadline duration — 210 000 ms for the batch versus
180 000 ms per session (src/stress-test.ts lines 52 and 107). -/
theorem global_deadline_exceeds_session_deadline :
    perClientTimeoutMs = 180000 ∧ globalTimeoutMs = 210000 ∧
      perClientTimeoutMs < globalTimeoutMs := by
  decide

/-- C2, counterexample: for the outcome of a session whose `connect()`
throws `"Connection refused"`, `duration` is present (the `catch` branch
sets it at src/stress-test.ts line 84) while `succeeded` is false, so the
claimed three-way equivalence `succeeded == true ⇔ error absent ⇔
duration present` fails at this concrete outcome. -/
theorem outcome_duration_not_iff_success :
    ¬(((runSingleClient 2 0 refusedConn).success = true) ↔
        ((runSingleClient 2 0 refusedConn).duration).isSome = true) := by
  decide

/-- C2 (amended): for every outcome of `runSingleClient`,
`succeeded == true ⇔ errorMessage absent`, and `durationMs` and `endedAt`
are present in every outcome, failed ones included (both the `try` and
the `catch` branch set them, src/stress-test.ts lines 76-77 and 83-84). -/
theorem outcome_success_iff_no_error (id t : Nat) (b : ClientBehavior) :
    ((runSingleClient id t b).success = true ↔
      (runSingleClient id t b).error = none)
    ∧ ((runSingleClient id t b).duration).isSome = true
    ∧ ((runSingleClient id t b).endTime).isSome = true := by
  cases h : racedWork id b <;> simp [runSingleClient, h]

/-- C3: `runSingleClient` never throws: for every client id and every
behaviour of the client capability (any step throwing, or the per-session
timer firing), it returns a fully determined `StressTestResult`; when the
raced work rejects with message `e`, the outcome captures `e` in its
`error` field, and when the raced work fulfils, the outcome is the
success record (src/stress-test.ts lines 41-91: the whole fallible
region sits inside try/catch). -/
theorem runSingleClient_captures_failures (id t : Nat) (b : ClientBehavior) :
    (∀ e, racedWork id b = .error e →
      runSingleClient id t b =
        { clientId := id, success := false, startTime := t,
          endTime := some (t + settleDelta b),
          duration := some (settleDelta b), error := some e })
    ∧ (racedWork id b = .ok () →
      runSingleClient id t b =
        { clientId := id, success := true, startTime := t,
          endTime := some (t + settleDelta b),
          duration := some (settleDelta b), error := none }) := by
  constructor
  · intro e h; simp [runSingleClient, h]
  · intro h; simp [runSingleClient, h]

/-- C3, witness: concrete instantiation at a client whose `connect()`
rejects with `"Connection refused"`. -/
theorem runSingleClient_captures_failures_witness :
    racedWork 2 refusedConn = Except.error "Connection refused" ∧
      (runSingleClient 2 0 refusedConn).error = some "Connection refused" :=
  ⟨rfl, by
    rw [(runSingleClient_captures_failures 2 0 refusedConn).1
      "Connection refused" rfl]⟩

/-- C5: the histogram classifier read off the code (`errorTypeOf`,
src/stress-test.ts lines 183-194) agrees with the policy as the
specification words it (`errorTypeSpec`): rules applied in order with
first match winning — timeout marker, transport marker, unavailability
marker, else the substring before the first `':'`, with `"Unknown"` when
there is no message. -/
theorem errorType_matches_policy (err : Option String) :
    errorTypeOf err = errorTypeSpec err := by
  cases err with
  | none => rfl
  | some e =>
    simp only [errorTypeOf, errorTypeSpec]
    by_cases h0 : e = ""
    · simp [h0]
    · simp only [if_neg h0]
      by_cases h1 : strIncludes e "timed out" <;> simp only [h1, if_true, if_false]
      by_cases h2 : strIncludes e "WebSocket" <;> simp only [h2, if_true, if_false]
      by_cases h3 : strIncludes e "Server is not available" <;>
        simp only [h3, if_true, if_false]
      rw [splitOnChar_headD]

/-- C10: the failure histogram partitions the failed outcomes — the sum
of all bucket counts equals the number of outcomes with
`succeeded == false` (each failed outcome bumps exactly one bucket,
src/stress-test.ts lines 182-196) — and an empty-string error message is
bucketed `"Unknown"` exactly like an absent one (`if (result.error)` is
false for `""`). -/
theorem histogram_partitions_failures (rs : List StressTestResult) :
    sumCounts (errorCounts rs) = (rs.filter (fun r => !r.success)).length
    ∧ errorTypeOf (some "") = "Unknown"
    ∧ errorTypeOf none = "Unknown" := by
  refine ⟨?_, by decide, by decide⟩
  have h := sumCounts_foldl (rs.filter (fun r => !r.success)) []
  simpa [errorCounts, sumCounts] using h

theorem launchSessions_get (N : Nat) (bs : Nat → ClientBehavior) (i : Nat)
    (hi : i < (launchSessions N bs).length) :
    ((launchSessions N bs).get ⟨i, hi⟩).clientId = i + 1 := by
  simp [launchSessions, runSingleClient_clientId]

/-- C1: when the global deadline fires first with 7 of 10 sessions
already succeeded, `runStressTest` rethrows the batch-level timeout
error, but `this.results` is still the initial empty list — it is only
assigned when the race fulfils (src/stress-test.ts line 121) — so the
guard `if (this.results.length > 0)` at line 137 is false and
`printResults` is never invoked on the 7 existing outcomes, contradicting
both the claim and the intent of the comment at line 136. -/
theorem globalTimeout_partial_results_lost :
    ((launchSessions 10 mixedBehaviors).filter (fun r => r.success)).length = 7
    ∧ (runStressTest 10 mixedBehaviors true).thrown =
        some "Entire stress test timed out after 3.5 minutes"
    ∧ (runStressTest 10 mixedBehaviors true).printedResults = none
    ∧ (runStressTest 10 mixedBehaviors true).finalResults = [] :=
  ⟨by decide, rfl, rfl, rfl⟩

/-- C4: for all N ≥ 1 the batch holds at most N outcomes, and on the
success path (the global timer does not fire first) it completes without
a batch error and `this.results` is exactly the ordered list of N
outcomes with `clientId` equal to position + 1, i.e. the distinct ids
1..N in order (src/stress-test.ts lines 112-124). -/
theorem batch_size_and_ids (N : Nat) (hN : 1 ≤ N) (bs : Nat → ClientBehavior)
    (g : Bool) :
    (runStressTest N bs g).finalResults.length ≤ N
    ∧ (g = false →
        (runStressTest N bs g).thrown = none
        ∧ (runStressTest N bs g).finalResults.length = N
        ∧ ∀ i : Fin (runStressTest N bs g).finalResults.length,
            ((runStressTest N bs g).finalResults.get i).clientId = i.val + 1) := by
  cases g with
  | true =>
    have hne : (N != 0) = true := by
      simp only [bne_iff_ne, ne_eq]
      omega
    constructor
    · simp [runStressTest, hne]
    · intro hcontra; cases hcontra
  | false =>
    refine ⟨?_, fun _ => ⟨rfl, ?_, ?_⟩⟩
    · simp [runStressTest, launchSessions]
    · simp [runStressTest, launchSessions]
    · intro i
      exact launchSessions_get N bs i.val i.isLt

/-- C4, witness: a two-client batch on the success path. -/
theorem batch_size_and_ids_witness :
    (runStressTest 2 (fun _ => fastOk) false).finalResults.length ≤ 2
    ∧ (runStressTest 2 (fun _ => fastOk) false).finalResults.length = 2 :=
  ⟨(batch_size_and_ids 2 (by decide) (fun _ => fastOk) false).1,
   ((batch_size_and_ids 2 (by decide) (fun _ => fastOk) false).2 rfl).2.1⟩

/-- C6, counterexample: with `N = 0` clients and the (necessarily empty)
outcome list, the reported success rate is the string `"NaN%"` — the
JavaScript `0 / 0` is `NaN` and `toFixed(1)` renders it `"NaN"`
(src/stress-test.ts line 153) — not `"0%"`, `"0.0%"` or `"N/A"` as the
claim requires. -/
theorem successRate_NaN_at_zero_clients :
    (printResults [] 0).rateDisplay = "NaN%"
    ∧ (printResults [] 0).rateDisplay ≠ "0%"
    ∧ (printResults [] 0).rateDisplay ≠ "0.0%"
    ∧ (printResults [] 0).rateDisplay ≠ "N/A" := by
  decide

/-- C6 (amended): with N = 0 the batch completes immediately on the
success path — `Promise.all([])` is already fulfilled, so whatever the
timer oracle says the race fulfils — with an empty result set handed to
the reporter, whose success-rate line displays the unhandled `0 / 0` as
`"NaN%"`. -/
theorem zero_clients_empty_run (bs : Nat → ClientBehavior) (g : Bool) :
    (runStressTest 0 bs g).finalResults = []
    ∧ (runStressTest 0 bs g).printedResults = some []
    ∧ (runStressTest 0 bs g).thrown = none
    ∧ (printResults [] 0).successCount = 0
    ∧ (printResults [] 0).failCount = 0
    ∧ (printResults [] 0).rateDisplay = "NaN%" := by
  cases g <;> exact ⟨rfl, rfl, rfl, rfl, rfl, by decide⟩

/-- C9: the histogram classification is deterministic: the bucket counts
are a function of the outcomes' `success` flags and `error` fields alone
(so two runs of the classifier over the same outcome set, or over
outcomes agreeing in those fields, give identical counts), and the bucket
of an outcome depends only on its `error` field (src/stress-test.ts
lines 181-196). -/
theorem histogram_deterministic (rs1 rs2 : List StressTestResult)
    (h : rs1.map (fun r => (r.success, r.error)) =
      rs2.map (fun r => (r.success, r.error))) :
    errorCounts rs1 = errorCounts rs2
    ∧ ∀ r1 r2 : StressTestResult, r1.error = r2.error →
        bucketOf r1 = bucketOf r2 := by
  constructor
  · rw [errorCounts_eq_foldl_failedKeys, errorCounts_eq_foldl_failedKeys,
      failedKeys_congr rs1 rs2 h]
  · intro r1 r2 he
    simp [bucketOf, he]

/-- C9, witness: two one-element outcome lists agreeing in `success` and
`error` but in no other field get identical histograms. -/
theorem histogram_deterministic_witness :
    histSampleA.map (fun r => (r.success, r.error)) =
      histSampleB.map (fun r => (r.success, r.error))
    ∧ errorCounts histSampleA = errorCounts histSampleB :=
  ⟨by decide, (histogram_deterministic histSampleA histSampleB (by decide)).1⟩

/-- C8: the recommendation tier is determined solely by the success count
against the thresholds of src/stress-test.ts lines 204-212: `excellentMsg`
iff `successful == N`, `goodMsg` iff `successful >= N * 0.8` and
`successful < N`, `moderateMsg` iff `successful >= N * 0.5` and
`successful < N * 0.8`, and `poorMsg` otherwise; in particular a 2-of-3
run (about 66.7%) lands in the `>= 50%` band. -/
theorem recommendation_tiers (s N : Nat) (h : s ≤ N) :
    (recommendation s N = excellentMsg ↔ s = N)
    ∧ (recommendation s N = goodMsg ↔
        ((N : ℚ) * (4 / 5) ≤ (s : ℚ) ∧ s < N))
    ∧ (recommendation s N = moderateMsg ↔
        ((N : ℚ) * (1 / 2) ≤ (s : ℚ) ∧ (s : ℚ) < (N : ℚ) * (4 / 5)))
    ∧ (recommendation s N = poorMsg ↔ (s : ℚ) < (N : ℚ) * (1 / 2))
    ∧ recommendation 2 3 = moderateMsg := by
  have hN0 : (0 : ℚ) ≤ (N : ℚ) := Nat.cast_nonneg N
  have h45 : (N : ℚ) * (4 / 5) ≤ (N : ℚ) := by nlinarith
  have h12 : (N : ℚ) * (1 / 2) ≤ (N : ℚ) * (4 / 5) := by nlinarith
  have h12N : (N : ℚ) * (1 / 2) ≤ (N : ℚ) := by nlinarith
  have hd1 : excellentMsg ≠ goodMsg := by decide
  have hd2 : excellentMsg ≠ moderateMsg := by decide
  have hd3 : excellentMsg ≠ poorMsg := by decide
  have hd4 : goodMsg ≠ moderateMsg := by decide
  have hd5 : goodMsg ≠ poorMsg := by decide
  have hd6 : moderateMsg ≠ poorMsg := by decide
  have hlast : recommendation 2 3 = moderateMsg := by norm_num [recommendation]
  by_cases he : s = N
  · have hr : recommendation s N = excellentMsg := by
      simp only [recommendation]
      rw [if_pos he]
    have hcast : (s : ℚ) = (N : ℚ) := by exact_mod_cast he
    refine ⟨by rw [hr]; simp [he], ?_, ?_, ?_, hlast⟩
    · rw [hr]
      constructor
      · intro hc; exact absurd hc hd1
      · rintro ⟨-, hlt⟩; omega
    · rw [hr]
      constructor
      · intro hc; exact absurd hc hd2
      · rintro ⟨-, hlt⟩
        rw [hcast] at hlt
        exact absurd hlt (not_lt.mpr h45)
    · rw [hr]
      constructor
      · intro hc; exact absurd hc hd3
      · intro hlt
        rw [hcast] at hlt
        exact absurd hlt (not_lt.mpr h12N)
  · by_cases hg : (N : ℚ) * (4 / 5) ≤ (s : ℚ)
    · have hr : recommendation s N = goodMsg := by
        simp only [recommendation]
        rw [if_neg he, if_pos hg]
      have hsltN : s < N := Nat.lt_of_le_of_ne h he
      refine ⟨?_, ?_, ?_, ?_, hlast⟩
      · rw [hr]
        constructor
        · intro hc; exact absurd hc.symm hd1
        · intro hc; exact absurd hc he
      · rw [hr]
        exact iff_of_true rfl ⟨hg, hsltN⟩
      · rw [hr]
        constructor
        · intro hc; exact absurd hc hd4
        · rintro ⟨-, hlt⟩; exact absurd hg (not_le.mpr hlt)
      · rw [hr]
        constructor
        · intro hc; exact absurd hc hd5
        · intro hlt
          exact absurd hg (not_le.mpr (lt_of_lt_of_le hlt h12))
    · by_cases hm : (N : ℚ) * (1 / 2) ≤ (s : ℚ)
      · have hr : recommendation s N = moderateMsg := by
          simp only [recommendation]
          rw [if_neg he, if_neg hg, if_pos hm]
        refine ⟨?_, ?_, ?_, ?_, hlast⟩
        · rw [hr]
          constructor
          · intro hc; exact absurd hc.symm hd2
          · intro hc; exact absurd hc he
        · rw [hr]
          constructor
          · intro hc; exact absurd hc.symm hd4
          · rintro ⟨hgc, -⟩; exact absurd hgc hg
        · rw [hr]
          exact iff_of_true rfl ⟨hm, not_le.mp hg⟩
        · rw [hr]
          constructor
          · intro hc; exact absurd hc hd6
          · intro hlt; exact absurd hm (not_le.mpr hlt)
      · have hr : recommendation s N = poorMsg := by
          simp only [recommendation]
          rw [if_neg he, if_neg hg, if_neg hm]
        refine ⟨?_, ?_, ?_, ?_, hlast⟩
        · rw [hr]
          constructor
          · intro hc; exact absurd hc.symm hd3
          · intro hc; exact absurd hc he
        · rw [hr]
          constructor
          · intro hc; exact absurd hc.symm hd5
          · rintro ⟨hgc, -⟩; exact absurd hgc hg
        · rw [hr]
          constructor
          · intro hc; exact absurd hc.symm hd6
          · rintro ⟨hmc, -⟩; exact absurd hmc hm
        · rw [hr]
          exact iff_of_true rfl (not_le.mp hm)

/-- C8, witness: the 2-of-3 run, about 66.7%, lands in the moderate
(>= 50%) band. -/
theorem recommendation_tiers_witness :
    2 ≤ 3 ∧ recommendation 2 3 = moderateMsg :=
  ⟨by decide, (recommendation_tiers 2 3 (by decide)).2.2.2.2⟩
